import Mathlib

/-!
Verification of the stock and yield reconciliation core of the RRM rice
mill tracker (three Streamlit application variants backed by SQLite).

Quantities and money amounts are modelled as exact rationals (`ℚ`);
dates and identifiers are strings, exactly as stored in the `TEXT`
columns of the database.  A SQL `NULL` in the sales `grade_id` column is
modelled as `Option.none`.  Each definition below is a direct
transcription of the corresponding handler or aggregation in
`rrm_streamlit_app.py` (called the v1 app), `rrm_streamlit_app_cloud_v2_3.py`
and `rrm_streamlit_app_cloud_v2_3_2.py` (the cloud variants); source
line numbers are cited in the doc comments.
-/

namespace RRM

/-- A row of the `purchases` table (schema in `rrm_streamlit_app.py`
lines 36-46). -/
structure Purchase where
  dt : String
  paddy_id : String
  qty_qtl : ℚ
  qty_kg : ℚ
  final_qtl : ℚ
  rate_qtl : ℚ
  cost : ℚ
  notes : String
deriving DecidableEq

/-- A row of the `milling_input` table (lines 47-58). -/
structure MillingInput where
  dt : String
  paddy_id : String
  used_qtl : ℚ
  used_kg : ℚ
  final_used_qtl : ℚ
  husk_qtl : ℚ
  polish_qtl : ℚ
  expense : ℚ
  notes : String
deriving DecidableEq

/-- A row of the `milling_output` table (lines 59-68). -/
structure MillingOutput where
  dt : String
  paddy_id : String
  grade_id : String
  out_qtl : ℚ
  out_kg : ℚ
  final_out_qtl : ℚ
  notes : String
deriving DecidableEq

/-- A row of the `sales` table (lines 69-80).  `grade_id` is nullable:
the add-sale handlers insert `None` for non-Rice products. -/
structure Sale where
  dt : String
  product : String
  grade_id : Option String
  qty_qtl : ℚ
  qty_kg : ℚ
  final_qtl : ℚ
  rate_qtl : ℚ
  revenue : ℚ
  notes : String
deriving DecidableEq

/-- The persistent state: the `config` key-value table plus the four
transaction tables.  (The master tables `paddy_types` / `rice_grades`
only contribute display names to the reports and carry no quantity
data, so they are not part of the aggregation state.)

The config value is stored as `TEXT` in SQLite; since the app only ever
writes decimal integer literals (`str(value)` of an `int` in [1,200])
which round-trip exactly through `float`, the value is modelled as `ℚ`
directly. -/
structure Store where
  config : List (String × ℚ)
  purchases : List Purchase
  milling_input : List MillingInput
  milling_output : List MillingOutput
  sales : List Sale
deriving DecidableEq

/-- `KG_PER_QTL_DEFAULT = 100` (`rrm_streamlit_app.py` line 11). -/
def KG_PER_QTL_DEFAULT : ℚ := 100

/-- `get_cfg(key, default)` (`rrm_streamlit_app.py` lines 95-100):
`SELECT value FROM config WHERE key=?`, returning the default when no
row matches. -/
def get_cfg (st : Store) (key : String) (default : ℚ) : ℚ :=
  match st.config.find? (fun kv => kv.1 = key) with
  | some kv => kv.2
  | none => default

/-- `set_cfg(key, value)` (`rrm_streamlit_app.py` lines 102-104):
`INSERT OR REPLACE INTO config(key,value)` — the row with that key is
replaced, every other table is untouched. -/
def set_cfg (st : Store) (key : String) (value : ℚ) : Store :=
  { st with config := (key, value) :: st.config.filter (fun kv => kv.1 ≠ key) }

/-- The `kg_per_qtl` ratio the handlers read before normalizing:
`float(get_cfg("kg_per_qtl", KG_PER_QTL_DEFAULT))`. -/
def kg_per_qtl_of (st : Store) : ℚ :=
  get_cfg st "kg_per_qtl" KG_PER_QTL_DEFAULT

/-- The unit-normalization expression, identical in the three add
handlers of the v1 app (`rrm_streamlit_app.py` lines 235, 263, 288, 322):
`qty_qtl if qty_qtl>0 else (qty_kg/kg_per_qtl if qty_kg>0 else 0)`. -/
def normalize (qty_qtl qty_kg kg_per_quintal : ℚ) : ℚ :=
  if qty_qtl > 0 then qty_qtl
  else if qty_kg > 0 then qty_kg / kg_per_quintal
  else 0

end RRM

namespace RRM

/-- The Purchase row inserted by the v1 "Add Purchase" handler
(`rrm_streamlit_app.py` lines 234-239):
`final_qtl = normalize(...)`, `cost = final_qtl * rate if (final_qtl and rate) else 0`.
Python truthiness of a float is `≠ 0`. -/
def purchaseRow_v1 (kpq : ℚ) (dt paddy_id : String) (qty_qtl qty_kg rate : ℚ)
    (notes : String) : Purchase :=
  let final_qtl := normalize qty_qtl qty_kg kpq
  let cost := if final_qtl ≠ 0 ∧ rate ≠ 0 then final_qtl * rate else 0
  ⟨dt, paddy_id, qty_qtl, qty_kg, final_qtl, rate, cost, notes⟩

/-- v1 "Add Purchase": append the row built from the current
`kg_per_qtl` configuration. -/
def addPurchase_v1 (st : Store) (dt paddy_id : String) (qty_qtl qty_kg rate : ℚ)
    (notes : String) : Store :=
  { st with purchases :=
      st.purchases ++ [purchaseRow_v1 (kg_per_qtl_of st) dt paddy_id qty_qtl qty_kg rate notes] }

/-- The Sale row inserted by the v1 "Add Sale" handler
(`rrm_streamlit_app.py` lines 321-327): `final_qtl = normalize(...)`,
`revenue = final_qtl * rate if (final_qtl and rate) else 0`, and
`grade_id = grade_sel if product=="Rice" else None` — note that for a
Rice sale the *selected* grade is stored even when it is the empty
string (the selectbox default). -/
def saleRow_v1 (kpq : ℚ) (dt product grade_sel : String) (qty_qtl qty_kg rate : ℚ)
    (notes : String) : Sale :=
  let final_qtl := normalize qty_qtl qty_kg kpq
  let revenue := if final_qtl ≠ 0 ∧ rate ≠ 0 then final_qtl * rate else 0
  ⟨dt, product, if product = "Rice" then some grade_sel else none,
    qty_qtl, qty_kg, final_qtl, rate, revenue, notes⟩

/-- v1 "Add Sale". -/
def addSale_v1 (st : Store) (dt product grade_sel : String) (qty_qtl qty_kg rate : ℚ)
    (notes : String) : Store :=
  { st with sales :=
      st.sales ++ [saleRow_v1 (kg_per_qtl_of st) dt product grade_sel qty_qtl qty_kg rate notes] }

/-- The Purchase row inserted by the cloud v2_3_2 "Add Purchase" handler
(`rrm_streamlit_app_cloud_v2_3_2.py` lines 196-199): quantity is entered
in quintals only, `qty_kg = 0`, `final_qtl = qty`, `cost = qty*rate`
unconditionally. -/
def purchaseRow_v232 (dt paddy_id : String) (qty rate : ℚ) (notes : String) : Purchase :=
  ⟨dt, paddy_id, qty, 0, qty, rate, qty * rate, notes⟩

/-- cloud v2_3_2 "Add Purchase". -/
def addPurchase_v232 (st : Store) (dt paddy_id : String) (qty rate : ℚ)
    (notes : String) : Store :=
  { st with purchases := st.purchases ++ [purchaseRow_v232 dt paddy_id qty rate notes] }

/-- The cloud v2_3_2 "Save Changes" edit of a Purchase
(`rrm_streamlit_app_cloud_v2_3_2.py` lines 210-213):
`UPDATE purchases SET final_qtl=?, rate_qtl=?, cost=?, notes=?` with
`new_cost = new_qty*new_rate`. -/
def editPurchase_v232 (r : Purchase) (new_qty new_rate : ℚ) (new_notes : String) :
    Purchase :=
  { r with final_qtl := new_qty, rate_qtl := new_rate,
           cost := new_qty * new_rate, notes := new_notes }

/-- The Sale row inserted by the cloud v2_3_2 "Add Sale" handler
(`rrm_streamlit_app_cloud_v2_3_2.py` lines 343-347):
`revenue = sa_qty * sa_rate if (sa_qty and sa_rate) else 0.0`, and
`grade_id = sa_gid if sa_prod=='Rice' and sa_gid else None` — the empty
selection `""` is falsy, so a Rice sale with no grade stores `None`. -/
def saleRow_v232 (dt product grade_sel : String) (qty rate : ℚ) (notes : String) : Sale :=
  ⟨dt, product, if product = "Rice" ∧ grade_sel ≠ "" then some grade_sel else none,
    qty, 0, qty, rate, if qty ≠ 0 ∧ rate ≠ 0 then qty * rate else 0, notes⟩

/-- cloud v2_3_2 "Add Sale". -/
def addSale_v232 (st : Store) (dt product grade_sel : String) (qty rate : ℚ)
    (notes : String) : Store :=
  { st with sales := st.sales ++ [saleRow_v232 dt product grade_sel qty rate notes] }

/-- The cloud v2_3_2 "Save Changes" edit of a Sale
(`rrm_streamlit_app_cloud_v2_3_2.py` lines 358-361):
`revenue = qty*(rate or 0)` — `rate or 0` is `rate` unless `rate == 0`. -/
def editSale_v232 (r : Sale) (qty rate : ℚ) (notes : String) : Sale :=
  { r with final_qtl := qty, rate_qtl := rate,
           revenue := qty * (if rate ≠ 0 then rate else 0), notes := notes }

/-- Sum of a numeric column over a list of rows. -/
def sumBy {α : Type} (rows : List α) (val : α → ℚ) : ℚ :=
  (rows.map val).sum

/-- `SELECT key, COALESCE(SUM(val),0) ... GROUP BY key` looked up at one
key: the sum of `val` over the rows whose key equals `k` (0 when there
are none, matching both SQL `COALESCE` and the pandas
`merge(..., how="outer").fillna(0)` step). -/
def groupSum {α : Type} {κ : Type} [DecidableEq κ]
    (rows : List α) (key : α → κ) (val : α → ℚ) (k : κ) : ℚ :=
  sumBy (rows.filter (fun r => key r = k)) val

/-- A row of the paddy-stock (or, with `Option String` keys, the
grade-stock) table of the Stock Ledger. -/
structure StockRow (κ : Type) where
  key : κ
  in_qtl : ℚ
  out_qtl : ℚ
  closing_qtl : ℚ
deriving DecidableEq

/-- Paddy stock (`rrm_streamlit_app_cloud_v2_3_2.py` lines 370-376 and
identically `rrm_streamlit_app_cloud_v2_3.py` lines 472-478): group
purchases and milling inputs by `paddy_id`, outer-merge, fill missing
sides with 0, `Closing_qtl = in_qtl - used_qtl`.  The key set of the
outer merge is the union of the two group-by key sets. -/
def paddy_stock (st : Store) : List (StockRow String) :=
  let keys := ((st.purchases.map Purchase.paddy_id)
      ++ (st.milling_input.map MillingInput.paddy_id)).dedup
  keys.map (fun k =>
    let inq := groupSum st.purchases Purchase.paddy_id Purchase.final_qtl k
    let used := groupSum st.milling_input MillingInput.paddy_id MillingInput.final_used_qtl k
    ⟨k, inq, used, inq - used⟩)

/-- Rice-grade stock (`rrm_streamlit_app_cloud_v2_3_2.py` lines 380-386,
identically v2_3 lines 484-490): milling outputs grouped by `grade_id`
outer-merged with Rice sales grouped by `grade_id` (the latter nullable),
`Closing_qtl = out_qtl - sold_qtl`. -/
def grade_stock (st : Store) : List (StockRow (Option String)) :=
  let riceSales := st.sales.filter (fun s => s.product = "Rice")
  let keys := ((st.milling_output.map (fun r => some r.grade_id))
      ++ (riceSales.map Sale.grade_id)).dedup
  keys.map (fun k =>
    let outq := groupSum st.milling_output (fun r => some r.grade_id)
      MillingOutput.final_out_qtl k
    let sold := groupSum riceSales Sale.grade_id Sale.final_qtl k
    ⟨k, outq, sold, outq - sold⟩)

/-- pandas `.round(2)` on an exact value: round to two decimal places. -/
def round2 (q : ℚ) : ℚ :=
  (round (q * 100) : ℚ) / 100

/-- A row of a yield table: `yield_pct = none` models the pandas `NA`
cell (rendered blank), produced when the grouped usage is zero. -/
structure YieldRow (κ : Type) where
  key : κ
  used_qtl : ℚ
  out_qtl : ℚ
  yield_pct : Option ℚ
deriving DecidableEq

/-- The yield cell of the cloud v2_3_2 report
(`rrm_streamlit_app_cloud_v2_3_2.py` lines 400 and 415):
`(out * 100.0 / used.replace({0: pd.NA})).round(2)` — `NA` when the
grouped usage is exactly 0, otherwise `round(out*100/used, 2)`. -/
def yieldCell (used outq : ℚ) : Option ℚ :=
  if used = 0 then none else some (round2 (outq * 100 / used))

/-- Overall yield by paddy type, cloud v2_3_2
(`rrm_streamlit_app_cloud_v2_3_2.py` lines 393-400): milling inputs and
outputs grouped by `paddy_id`, outer-merged with `fillna(0)`, then the
yield column. -/
def yield_by_paddy (st : Store) : List (YieldRow String) :=
  let keys := ((st.milling_input.map MillingInput.paddy_id)
      ++ (st.milling_output.map MillingOutput.paddy_id)).dedup
  keys.map (fun k =>
    let used := groupSum st.milling_input MillingInput.paddy_id MillingInput.final_used_qtl k
    let outq := groupSum st.milling_output MillingOutput.paddy_id MillingOutput.final_out_qtl k
    ⟨k, used, outq, yieldCell used outq⟩)

/-- The yield cell of the cloud v2_3 report
(`rrm_streamlit_app_cloud_v2_3.py` line 512):
`((out / used.replace({0: pd.NA})) * 100).round(2)`. -/
def yieldCell_v23 (used outq : ℚ) : Option ℚ :=
  if used = 0 then none else some (round2 (outq / used * 100))

/-- Overall yield by paddy type, cloud v2_3 (lines 500-513): same
grouping and merge as v2_3_2, with the v2_3 yield expression. -/
def yield_by_paddy_v23 (st : Store) : List (YieldRow String) :=
  let keys := ((st.milling_input.map MillingInput.paddy_id)
      ++ (st.milling_output.map MillingOutput.paddy_id)).dedup
  keys.map (fun k =>
    let used := groupSum st.milling_input MillingInput.paddy_id MillingInput.final_used_qtl k
    let outq := groupSum st.milling_output MillingOutput.paddy_id MillingOutput.final_out_qtl k
    ⟨k, used, outq, yieldCell_v23 used outq⟩)

/-- Lenient date parsing, modelling `pd.to_datetime(s, errors="coerce")`
restricted to the ISO-8601 `YYYY-MM-DD` strings the app writes
(`dt.isoformat()`): a parsed date is encoded as the sortable key
`y*10000 + m*100 + d`; any string that does not parse yields `none`
(pandas `NaT`). -/
def parseDate (s : String) : Option Nat :=
  match s.splitOn "-" with
  | [y, m, d] =>
    match y.toNat?, m.toNat?, d.toNat? with
    | some yn, some mn, some dn =>
      if 1 ≤ mn ∧ mn ≤ 12 ∧ 1 ≤ dn ∧ dn ≤ 31 then some (yn * 10000 + mn * 100 + dn)
      else none
    | _, _, _ => none
  | _ => none

/-- Insert into a descending-sorted list (by `key`). -/
def insertDescBy {α β : Type} [LinearOrder β] (key : α → β) (a : α) :
    List α → List α
  | [] => [a]
  | b :: t => if key b ≤ key a then a :: b :: t else b :: insertDescBy key a t

/-- Insertion sort, descending by `key`: models
`sort_values(..., ascending=False)` / `ORDER BY ... DESC`. -/
def sortDescBy {α β : Type} [LinearOrder β] (key : α → β) : List α → List α
  | [] => []
  | a :: t => insertDescBy key a (sortDescBy key t)

/-- Daily yield, identical in the two cloud variants
(`rrm_streamlit_app_cloud_v2_3_2.py` lines 405-416, v2_3 lines 517-529):
parse each row's date leniently, drop unparsable ones (`groupby`
with `dropna=True` drops `NaT` keys), group input and output sums by
date, outer-join the two series with `fillna(0.0)`, compute the yield
cell, and sort by date descending. -/
def yield_by_date (st : Store) : List (YieldRow Nat) :=
  let miP := st.milling_input.filterMap
    (fun r => (parseDate r.dt).map (fun d => (d, r.final_used_qtl)))
  let moP := st.milling_output.filterMap
    (fun r => (parseDate r.dt).map (fun d => (d, r.final_out_qtl)))
  let keys := ((miP.map Prod.fst) ++ (moP.map Prod.fst)).dedup
  sortDescBy YieldRow.key (keys.map (fun d =>
    let used := groupSum miP Prod.fst Prod.snd d
    let outq := groupSum moP Prod.fst Prod.snd d
    ⟨d, used, outq, yieldCell used outq⟩))

/-- Daily yield of cloud v2_3 (lines 517-529): the code is
line-for-line the same as in v2_3_2. -/
def yield_by_date_v23 (st : Store) : List (YieldRow Nat) :=
  let miP := st.milling_input.filterMap
    (fun r => (parseDate r.dt).map (fun d => (d, r.final_used_qtl)))
  let moP := st.milling_output.filterMap
    (fun r => (parseDate r.dt).map (fun d => (d, r.final_out_qtl)))
  let keys := ((miP.map Prod.fst) ++ (moP.map Prod.fst)).dedup
  sortDescBy YieldRow.key (keys.map (fun d =>
    let used := groupSum miP Prod.fst Prod.snd d
    let outq := groupSum moP Prod.fst Prod.snd d
    ⟨d, used, outq, yieldCell used outq⟩))

/-- A row of the v1 Daily Summary. -/
structure SummaryRow where
  date : String
  paddy_in : ℚ
  paddy_used : ℚ
  rice_out : ℚ
  rice_sold : ℚ
  sales_revenue : ℚ
deriving DecidableEq

/-- The distinct-date subquery of the Daily Summary
(`rrm_streamlit_app.py` lines 151-159): `SELECT dt FROM purchases UNION
... UNION SELECT dt FROM sales` — `UNION` deduplicates. -/
def allDates (st : Store) : List String :=
  (st.purchases.map Purchase.dt) ++ (st.milling_input.map MillingInput.dt)
    ++ (st.milling_output.map MillingOutput.dt) ++ (st.sales.map Sale.dt)

/-- The correlated subqueries of the Daily Summary evaluated at one
date `d` (`rrm_streamlit_app.py` lines 145-150): each column is
`COALESCE((SELECT SUM(col) FROM table WHERE dt = d [AND product='Rice']),0)`. -/
def summaryRowAt (st : Store) (d : String) : SummaryRow :=
  ⟨d,
    sumBy (st.purchases.filter (fun p => p.dt = d)) Purchase.final_qtl,
    sumBy (st.milling_input.filter (fun r => r.dt = d)) MillingInput.final_used_qtl,
    sumBy (st.milling_output.filter (fun r => r.dt = d)) MillingOutput.final_out_qtl,
    sumBy (st.sales.filter (fun s => s.dt = d ∧ s.product = "Rice")) Sale.final_qtl,
    sumBy (st.sales.filter (fun s => s.dt = d)) Sale.revenue⟩

/-- Daily Summary (`rrm_streamlit_app.py` lines 144-163): one row per
distinct non-empty date in the union of the four tables' `dt` columns
(`dt` is never SQL NULL: every insert writes `dt.isoformat()`), each
column a correlated subquery at that date, `ORDER BY dt DESC` (SQLite
binary collation = codepoint order on these ASCII ISO-date strings). -/
def daily_summary (st : Store) : List SummaryRow :=
  sortDescBy SummaryRow.date
    ((((allDates st).filter (fun d => d ≠ "")).dedup).map (summaryRowAt st))

/-- Paddy stock of cloud v2_3 (`rrm_streamlit_app_cloud_v2_3.py` lines
472-478): the code is line-for-line the same as in v2_3_2. -/
def paddy_stock_v23 (st : Store) : List (StockRow String) :=
  let keys := ((st.purchases.map Purchase.paddy_id)
      ++ (st.milling_input.map MillingInput.paddy_id)).dedup
  keys.map (fun k =>
    let inq := groupSum st.purchases Purchase.paddy_id Purchase.final_qtl k
    let used := groupSum st.milling_input MillingInput.paddy_id MillingInput.final_used_qtl k
    ⟨k, inq, used, inq - used⟩)

/-- Rice-grade stock of cloud v2_3 (lines 484-490): the code is
line-for-line the same as in v2_3_2. -/
def grade_stock_v23 (st : Store) : List (StockRow (Option String)) :=
  let riceSales := st.sales.filter (fun s => s.product = "Rice")
  let keys := ((st.milling_output.map (fun r => some r.grade_id))
      ++ (riceSales.map Sale.grade_id)).dedup
  keys.map (fun k =>
    let outq := groupSum st.milling_output (fun r => some r.grade_id)
      MillingOutput.final_out_qtl k
    let sold := groupSum riceSales Sale.grade_id Sale.final_qtl k
    ⟨k, outq, sold, outq - sold⟩)

/-- A stored rice-grade reference that is "set": non-null (`some`) and
non-empty. -/
def gradeRefSet (s : Sale) : Prop :=
  s.grade_id ≠ none ∧ s.grade_id ≠ some ""

/-- A small concrete snapshot of the transaction store, used to witness
the aggregation theorems on evaluable input: one purchase and matching
milling input/output for paddy 1121 (the 65% yield scenario of the
spec), a milling input for a paddy that was never purchased, a milling
output for a paddy that was never milled in, a Rice sale with a grade
and a Husk sale on a date with no other activity. -/
def demoStore : Store :=
  { config := [("kg_per_qtl", 100)]
    purchases := [⟨"2025-01-01", "PAD-1121", 100, 0, 100, 2000, 200000, ""⟩]
    milling_input :=
      [⟨"2025-01-01", "PAD-1121", 100, 0, 100, 8, 2, 1500, ""⟩,
       ⟨"2025-01-03", "PAD-9999", 5, 0, 5, 0, 0, 0, ""⟩]
    milling_output :=
      [⟨"2025-01-01", "PAD-1121", "GRD-WAND", 65, 0, 65, ""⟩,
       ⟨"2025-01-02", "PAD-0000", "GRD-DUB", 2, 0, 2, ""⟩]
    sales :=
      [⟨"2025-01-05", "Rice", some "GRD-WAND", 30, 0, 30, 3000, 90000, ""⟩,
       ⟨"2025-02-01", "Husk", none, 10, 0, 10, 50, 500, ""⟩] }

theorem insertDescBy_perm {α β : Type} [LinearOrder β] (key : α → β) (a : α)
    (l : List α) : (insertDescBy key a l).Perm (a :: l) := by
  induction l with
  | nil => simp [insertDescBy]
  | cons b t ih =>
    rw [insertDescBy]
    split
    · exact List.Perm.refl _
    · exact (ih.cons b).trans (List.Perm.swap a b t)

theorem sortDescBy_perm {α β : Type} [LinearOrder β] (key : α → β)
    (l : List α) : (sortDescBy key l).Perm l := by
  induction l with
  | nil => simp [sortDescBy]
  | cons a t ih =>
    rw [sortDescBy]
    exact (insertDescBy_perm key a (sortDescBy key t)).trans (ih.cons a)

theorem pairwise_insertDescBy {α β : Type} [LinearOrder β] (key : α → β) (a : α)
    (l : List α) (h : l.Pairwise (fun x y => key y ≤ key x)) :
    (insertDescBy key a l).Pairwise (fun x y => key y ≤ key x) := by
  induction l with
  | nil => simp [insertDescBy]
  | cons b t ih =>
    rw [insertDescBy]
    rw [List.pairwise_cons] at h
    split
    · rename_i hba
      refine List.pairwise_cons.mpr ⟨?_, List.pairwise_cons.mpr h⟩
      intro x hx
      rcases List.mem_cons.mp hx with hxb | hxt
      · exact hxb ▸ hba
      · exact le_trans (h.1 x hxt) hba
    · rename_i hba
      refine List.pairwise_cons.mpr ⟨?_, ih h.2⟩
      intro x hx
      rcases List.mem_cons.mp ((insertDescBy_perm key a t).mem_iff.mp hx) with hxa | hxt
      · exact hxa ▸ le_of_lt (lt_of_not_le hba)
      · exact h.1 x hxt

theorem pairwise_sortDescBy {α β : Type} [LinearOrder β] (key : α → β)
    (l : List α) : (sortDescBy key l).Pairwise (fun x y => key y ≤ key x) := by
  induction l with
  | nil => simp [sortDescBy]
  | cons a t ih =>
    rw [sortDescBy]
    exact pairwise_insertDescBy key a _ ih

theorem groupSum_of_not_mem {α κ : Type} [DecidableEq κ] (rows : List α)
    (key : α → κ) (val : α → ℚ) (k : κ) (h : k ∉ rows.map key) :
    groupSum rows key val k = 0 := by
  unfold groupSum sumBy
  have hnil : rows.filter (fun r => key r = k) = [] := by
    refine List.filter_eq_nil_iff.mpr ?_
    intro r hr
    simp only [decide_eq_true_eq]
    intro hk
    exact h (List.mem_map.mpr ⟨r, hr, hk⟩)
  rw [hnil]
  simp

/-- C1: `normalize` returns `qty_quintal` whenever `qty_quintal > 0`
(quintal entry takes precedence over a simultaneous kilogram entry);
otherwise it returns `qty_kg / kg_per_quintal` when `qty_kg > 0`, and
`0` when neither quantity is positive. -/
theorem normalize_spec (q kg k : ℚ) :
    (q > 0 → normalize q kg k = q) ∧
    (¬ q > 0 → kg > 0 → normalize q kg k = kg / k) ∧
    (¬ q > 0 → ¬ kg > 0 → normalize q kg k = 0) := by
  refine ⟨fun h => by simp [normalize, h], fun h1 h2 => ?_, fun h1 h2 => ?_⟩ <;>
    simp [normalize, h1, h2]

/-- Witness for C1 at concrete inputs: quintal entry 5 wins over a
kilogram entry, 250 kg at 100 kg/qtl normalizes to 5/2, and double-zero
input normalizes to 0. -/
theorem normalize_spec_witness :
    normalize 5 320 100 = 5 ∧ normalize 0 250 100 = 5 / 2 ∧
      normalize 0 0 100 = 0 := by
  refine ⟨(normalize_spec 5 320 100).1 (by norm_num), ?_, ?_⟩
  · have h := (normalize_spec 0 250 100).2.1 (by norm_num) (by norm_num)
    rw [h]; norm_num
  · exact (normalize_spec 0 0 100).2.2 (by norm_num) (by norm_num)

/-- C2: in `yield_by_paddy` and in the per-date variant `yield_by_date`,
every row with strictly positive grouped usage carries
`yield_pct = round(out_qtl * 100 / used_qtl, 2)`, and every row with
zero grouped usage carries the explicit absent marker (`none`, the
pandas `NA` cell) — the computation is a total function (it can never
raise a division-by-zero fault) and never fabricates a numeric value
such as 0 or 100 for the undefined case. -/
theorem yield_pct_spec (st : Store) :
    (∀ r ∈ yield_by_paddy st,
      (r.used_qtl > 0 → r.yield_pct = some (round2 (r.out_qtl * 100 / r.used_qtl))) ∧
      (r.used_qtl = 0 → r.yield_pct = none)) ∧
    (∀ r ∈ yield_by_date st,
      (r.used_qtl > 0 → r.yield_pct = some (round2 (r.out_qtl * 100 / r.used_qtl))) ∧
      (r.used_qtl = 0 → r.yield_pct = none)) := by
  constructor
  · intro r hr
    simp only [yield_by_paddy] at hr
    obtain ⟨k, _, rfl⟩ := List.mem_map.mp hr
    constructor
    · intro hpos
      simp only [yieldCell, if_neg (ne_of_gt hpos)]
    · intro hz
      simp only [yieldCell, if_pos hz]
  · intro r hr
    simp only [yield_by_date] at hr
    have hr' := (sortDescBy_perm (YieldRow.key) _).mem_iff.mp hr
    obtain ⟨k, _, rfl⟩ := List.mem_map.mp hr'
    constructor
    · intro hpos
      simp only [yieldCell, if_neg (ne_of_gt hpos)]
    · intro hz
      simp only [yieldCell, if_pos hz]

/-- Witness for C2: in `yield_by_paddy demoStore`, paddy 1121 (used 100,
out 65) gets `yield_pct = round2 65 = 65`, and paddy 0000 (milled out
but never milled in, so used 0) gets the absent marker. -/
theorem yield_pct_spec_witness :
    ((⟨"PAD-1121", 100, 65, some 65⟩ : YieldRow String) ∈ yield_by_paddy demoStore ∧
      (some 65 : Option ℚ) = some (round2 (65 * 100 / 100))) ∧
    ((⟨"PAD-0000", 0, 2, none⟩ : YieldRow String) ∈ yield_by_paddy demoStore ∧
      (none : Option ℚ) = none) := by
  have hm1 : (⟨"PAD-1121", 100, 65, some 65⟩ : YieldRow String) ∈ yield_by_paddy demoStore := by
    simp +decide [yield_by_paddy, demoStore, groupSum, sumBy, yieldCell, round2,
      List.filter_cons]
    norm_num
  have hm0 : (⟨"PAD-0000", 0, 2, none⟩ : YieldRow String) ∈ yield_by_paddy demoStore := by
    simp +decide [yield_by_paddy, demoStore, groupSum, sumBy, yieldCell, round2,
      List.filter_cons]
  constructor
  · refine ⟨hm1, ?_⟩
    have h := ((yield_pct_spec demoStore).1 ⟨"PAD-1121", 100, 65, some 65⟩ hm1).1 (by norm_num)
    exact h
  · exact ⟨hm0, ((yield_pct_spec demoStore).1 ⟨"PAD-0000", 0, 2, none⟩ hm0).2 rfl⟩

/-- C3: every row of `paddy_stock` satisfies
`closing_qtl = inflow_qtl - used_qtl` exactly (the arithmetic is exact
rational arithmetic, so the 1e-9 floating-point tolerance of the claim
is met with slack), and the aggregator does not clamp or reject a
negative closing balance: whenever usage exceeds inflow the closing
value is returned negative as-is. -/
theorem paddy_stock_closing (st : Store) (r : StockRow String)
    (hr : r ∈ paddy_stock st) :
    r.closing_qtl = r.in_qtl - r.out_qtl ∧
      (r.out_qtl > r.in_qtl → r.closing_qtl < 0) := by
  simp only [paddy_stock] at hr
  obtain ⟨k, _, rfl⟩ := List.mem_map.mp hr
  exact ⟨rfl, fun h => by simpa using sub_neg.mpr h⟩

/-- Witness for C3: in `demoStore`, paddy 9999 was milled in (5 qtl)
without ever being purchased, so its closing balance is the negative
value −5, reported as-is. -/
theorem paddy_stock_closing_witness :
    (⟨"PAD-9999", 0, 5, -5⟩ : StockRow String) ∈ paddy_stock demoStore ∧
      (-5 : ℚ) = 0 - 5 ∧ (-5 : ℚ) < 0 := by
  have hm : (⟨"PAD-9999", 0, 5, -5⟩ : StockRow String) ∈ paddy_stock demoStore := by
    simp +decide [paddy_stock, demoStore, groupSum, sumBy, List.filter_cons]
  have h := paddy_stock_closing demoStore ⟨"PAD-9999", 0, 5, -5⟩ hm
  exact ⟨hm, h.1, h.2 (by norm_num)⟩

/-- C4: `paddy_stock` and `grade_stock` are full outer joins on the
grouping key: every paddy type occurring in either the purchases or the
milling-input table appears in `paddy_stock`, with `used_qtl = 0` when
it has no milling-input rows and `inflow_qtl = 0` when it has no
purchase rows; likewise every grade occurring in either the
milling-output table or the Rice sales appears in `grade_stock` with
the missing side reported as 0. -/
theorem stock_outer_join (st : Store) :
    (∀ k : String,
      (k ∈ st.purchases.map Purchase.paddy_id ∨
        k ∈ st.milling_input.map MillingInput.paddy_id) →
      ∃ r ∈ paddy_stock st, r.key = k ∧
        (k ∉ st.milling_input.map MillingInput.paddy_id → r.out_qtl = 0) ∧
        (k ∉ st.purchases.map Purchase.paddy_id → r.in_qtl = 0)) ∧
    (∀ g : Option String,
      (g ∈ st.milling_output.map (fun r => some r.grade_id) ∨
        g ∈ (st.sales.filter (fun s => s.product = "Rice")).map Sale.grade_id) →
      ∃ r ∈ grade_stock st, r.key = g ∧
        (g ∉ (st.sales.filter (fun s => s.product = "Rice")).map Sale.grade_id →
          r.out_qtl = 0) ∧
        (g ∉ st.milling_output.map (fun r => some r.grade_id) → r.in_qtl = 0)) := by
  constructor
  · intro k hk
    refine ⟨⟨k, groupSum st.purchases Purchase.paddy_id Purchase.final_qtl k,
        groupSum st.milling_input MillingInput.paddy_id MillingInput.final_used_qtl k,
        groupSum st.purchases Purchase.paddy_id Purchase.final_qtl k -
          groupSum st.milling_input MillingInput.paddy_id MillingInput.final_used_qtl k⟩,
      ?_, rfl, ?_, ?_⟩
    · simp only [paddy_stock]
      exact List.mem_map.mpr ⟨k, List.mem_dedup.mpr (List.mem_append.mpr hk), rfl⟩
    · intro hnot
      exact groupSum_of_not_mem _ _ _ _ hnot
    · intro hnot
      exact groupSum_of_not_mem _ _ _ _ hnot
  · intro g hg
    refine ⟨⟨g, groupSum st.milling_output (fun r => some r.grade_id)
        MillingOutput.final_out_qtl g,
        groupSum (st.sales.filter (fun s => s.product = "Rice")) Sale.grade_id
          Sale.final_qtl g,
        groupSum st.milling_output (fun r => some r.grade_id) MillingOutput.final_out_qtl g -
          groupSum (st.sales.filter (fun s => s.product = "Rice")) Sale.grade_id
            Sale.final_qtl g⟩,
      ?_, rfl, ?_, ?_⟩
    · simp only [grade_stock]
      exact List.mem_map.mpr ⟨g, List.mem_dedup.mpr (List.mem_append.mpr hg), rfl⟩
    · intro hnot
      exact groupSum_of_not_mem _ _ _ _ hnot
    · intro hnot
      exact groupSum_of_not_mem _ _ _ _ hnot

/-- Witness for C4: paddy 9999 has a milling-input row in `demoStore`
but no purchase, and it appears in `paddy_stock demoStore` with inflow
0; grade GRD-WAND was both milled out and sold, and appears in
`grade_stock demoStore`. -/
theorem stock_outer_join_witness :
    (∃ r ∈ paddy_stock demoStore, r.key = "PAD-9999" ∧ r.in_qtl = 0) ∧
    (∃ r ∈ grade_stock demoStore, r.key = some "GRD-WAND") := by
  constructor
  · obtain ⟨r, hmem, hkey, _, hin⟩ := (stock_outer_join demoStore).1 "PAD-9999"
      (Or.inr (by simp +decide [demoStore]))
    exact ⟨r, hmem, hkey, hin (by simp +decide [demoStore])⟩
  · obtain ⟨r, hmem, hkey, _, _⟩ := (stock_outer_join demoStore).2 (some "GRD-WAND")
      (Or.inl (by simp +decide [demoStore]))
    exact ⟨r, hmem, hkey⟩

/-- C5: `daily_summary` is sorted descending by date, has exactly one
row per distinct date (no duplicates), a row exists for a date exactly
when that non-empty date occurs in at least one of the four transaction
tables (no date is ever synthesized), and each row's columns are the
sums of the canonical quantities at that date — purchases for
`paddy_in`, milling inputs for `paddy_used`, milling outputs for
`rice_out`, Rice-product sales for `rice_sold`, and all-product sale
revenue for `sales_revenue`. -/
theorem daily_summary_spec (st : Store) :
    (daily_summary st).Pairwise (fun a b => b.date ≤ a.date) ∧
    ((daily_summary st).map SummaryRow.date).Nodup ∧
    (∀ d : String, (∃ r ∈ daily_summary st, r.date = d) ↔ (d ≠ "" ∧ d ∈ allDates st)) ∧
    (∀ r ∈ daily_summary st,
      r.paddy_in = sumBy (st.purchases.filter (fun p => p.dt = r.date))
          Purchase.final_qtl ∧
      r.paddy_used = sumBy (st.milling_input.filter (fun m => m.dt = r.date))
          MillingInput.final_used_qtl ∧
      r.rice_out = sumBy (st.milling_output.filter (fun m => m.dt = r.date))
          MillingOutput.final_out_qtl ∧
      r.rice_sold = sumBy (st.sales.filter (fun s => s.dt = r.date ∧ s.product = "Rice"))
          Sale.final_qtl ∧
      r.sales_revenue = sumBy (st.sales.filter (fun s => s.dt = r.date)) Sale.revenue) := by
  have hperm : (daily_summary st).Perm
      ((((allDates st).filter (fun d => d ≠ "")).dedup).map (summaryRowAt st)) :=
    sortDescBy_perm SummaryRow.date _
  have hdates : ∀ r ∈ daily_summary st,
      ∃ d, d ∈ ((allDates st).filter (fun d => d ≠ "")).dedup ∧ r = summaryRowAt st d := by
    intro r hr
    obtain ⟨d, hd, hrd⟩ := List.mem_map.mp (hperm.mem_iff.mp hr)
    exact ⟨d, hd, hrd.symm⟩
  refine ⟨pairwise_sortDescBy SummaryRow.date _, ?_, ?_, ?_⟩
  · have hmap : ((daily_summary st).map SummaryRow.date).Perm
        (((allDates st).filter (fun d => d ≠ "")).dedup) := by
      have h1 := hperm.map SummaryRow.date
      rw [List.map_map] at h1
      have hcomp : SummaryRow.date ∘ summaryRowAt st = id := rfl
      rw [hcomp, List.map_id] at h1
      exact h1
    exact hmap.nodup_iff.mpr (List.nodup_dedup _)
  · intro d
    constructor
    · rintro ⟨r, hr, rfl⟩
      obtain ⟨d0, hd0, rfl⟩ := hdates r hr
      have := List.mem_dedup.mp hd0
      have hf := List.mem_filter.mp this
      exact ⟨by simpa using hf.2, hf.1⟩
    · rintro ⟨hne, hmem⟩
      refine ⟨summaryRowAt st d, ?_, rfl⟩
      refine hperm.mem_iff.mpr (List.mem_map.mpr ⟨d, ?_, rfl⟩)
      exact List.mem_dedup.mpr (List.mem_filter.mpr ⟨hmem, by simpa using hne⟩)
  · intro r hr
    obtain ⟨d, _, rfl⟩ := hdates r hr
    exact ⟨rfl, rfl, rfl, rfl, rfl⟩

/-- Witness for C5: the date 2025-02-01 occurs in `demoStore` only as a
Husk sale; the theorem yields its summary row, whose columns evaluate
to `paddy_in = 0`, `paddy_used = 0`, `rice_out = 0`, `rice_sold = 0`
and `sales_revenue = 500` (that sale's revenue). -/
theorem daily_summary_spec_witness :
    ∃ r ∈ daily_summary demoStore, r.date = "2025-02-01" ∧
      r.paddy_in = 0 ∧ r.paddy_used = 0 ∧ r.rice_out = 0 ∧ r.rice_sold = 0 ∧
      r.sales_revenue = 500 := by
  obtain ⟨r, hmem, hdate⟩ := ((daily_summary_spec demoStore).2.2.1 "2025-02-01").mpr
    ⟨by decide, by simp +decide [demoStore, allDates]⟩
  obtain ⟨h1, h2, h3, h4, h5⟩ := (daily_summary_spec demoStore).2.2.2 r hmem
  rw [hdate] at h1 h2 h3 h4 h5
  refine ⟨r, hmem, hdate, ?_, ?_, ?_, ?_, ?_⟩
  · rw [h1]; simp +decide [demoStore, sumBy, List.filter_cons]
  · rw [h2]; simp +decide [demoStore, sumBy, List.filter_cons]
  · rw [h3]; simp +decide [demoStore, sumBy, List.filter_cons]
  · rw [h4]; simp +decide [demoStore, sumBy, List.filter_cons]
  · rw [h5]; simp +decide [demoStore, sumBy, List.filter_cons]

/-- Counterexample to C6 as stated: a Rice sale entered with the empty
grade selection (the selectbox default, nothing prevents submitting it)
produces a row whose product is Rice but whose stored grade reference
is not set — the v1 handler stores the empty string, the cloud v2_3_2
handler stores NULL.  So "set if and only if product = Rice" fails in
the only-if → if direction. -/
theorem sale_grade_iff_rice_counterexample :
    ¬ (gradeRefSet (saleRow_v1 100 "2025-01-01" "Rice" "" 1 0 100 "") ↔
        (saleRow_v1 100 "2025-01-01" "Rice" "" 1 0 100 "").product = "Rice") ∧
    ¬ (gradeRefSet (saleRow_v232 "2025-01-01" "Rice" "" 1 100 "") ↔
        (saleRow_v232 "2025-01-01" "Rice" "" 1 100 "").product = "Rice") := by
  constructor <;> simp +decide [saleRow_v1, saleRow_v232, gradeRefSet]

/-- C6 amended: the stored grade reference is set only if the product
is Rice — for Husk and Polish both handlers always store NULL.  For a
Rice sale the v1 handler stores the selected grade verbatim (which is
the empty string, not a set reference, when no grade was chosen), and
the cloud v2_3_2 handler stores the selected grade when it is non-empty
and NULL otherwise, so there the reference is set iff a non-empty grade
was selected. -/
theorem sale_grade_only_if_rice (kpq : ℚ) (dt product grade_sel : String)
    (qq qk rate qty rate2 : ℚ) (notes : String) :
    (product ≠ "Rice" →
      (saleRow_v1 kpq dt product grade_sel qq qk rate notes).grade_id = none ∧
      (saleRow_v232 dt product grade_sel qty rate2 notes).grade_id = none) ∧
    (product = "Rice" →
      (saleRow_v1 kpq dt product grade_sel qq qk rate notes).grade_id = some grade_sel ∧
      (gradeRefSet (saleRow_v232 dt product grade_sel qty rate2 notes) ↔ grade_sel ≠ "")) ∧
    (gradeRefSet (saleRow_v1 kpq dt product grade_sel qq qk rate notes) →
      product = "Rice") ∧
    (gradeRefSet (saleRow_v232 dt product grade_sel qty rate2 notes) →
      product = "Rice") := by
  by_cases hp : product = "Rice" <;> by_cases hg : grade_sel = "" <;>
    simp [saleRow_v1, saleRow_v232, gradeRefSet, hp, hg]

/-- Witness for the amended C6 at concrete inputs: a Husk sale (v1) and
a Polish sale (v2_3_2) store no grade, and a Rice sale with grade
GRD-WAND stores it (set) in both handlers. -/
theorem sale_grade_only_if_rice_witness :
    (saleRow_v1 100 "2025-01-01" "Husk" "" 1 0 50 "").grade_id = none ∧
    (saleRow_v232 "2025-01-01" "Polish" "" 1 50 "").grade_id = none ∧
    (saleRow_v1 100 "2025-01-01" "Rice" "GRD-WAND" 1 0 3000 "").grade_id
      = some "GRD-WAND" ∧
    gradeRefSet (saleRow_v232 "2025-01-01" "Rice" "GRD-WAND" 1 3000 "") := by
  refine ⟨((sale_grade_only_if_rice 100 "2025-01-01" "Husk" "" 1 0 50 1 50 "").1
      (by decide)).1,
    ((sale_grade_only_if_rice 100 "2025-01-01" "Polish" "" 1 0 50 1 50 "").1
      (by decide)).2,
    ((sale_grade_only_if_rice 100 "2025-01-01" "Rice" "GRD-WAND" 1 0 3000 1 3000 "").2.1
      rfl).1,
    ((sale_grade_only_if_rice 100 "2025-01-01" "Rice" "GRD-WAND" 1 0 3000 1 3000 "").2.1
      rfl).2.mpr (by decide)⟩

/-- C7: `set_cfg` (the Save Conversion handler) rewrites only the
config table: the four transaction tables — and with them every stored
canonical quantity `final_qtl` / `final_used_qtl` / `final_out_qtl` —
are untouched, and the new ratio is what subsequent reads (and hence
subsequent `normalize` calls in the add handlers) observe. -/
theorem set_cfg_frame (st : Store) (key : String) (value : ℚ) :
    (set_cfg st key value).purchases = st.purchases ∧
    (set_cfg st key value).milling_input = st.milling_input ∧
    (set_cfg st key value).milling_output = st.milling_output ∧
    (set_cfg st key value).sales = st.sales ∧
    (set_cfg st key value).purchases.map Purchase.final_qtl
      = st.purchases.map Purchase.final_qtl ∧
    (set_cfg st key value).milling_input.map MillingInput.final_used_qtl
      = st.milling_input.map MillingInput.final_used_qtl ∧
    (set_cfg st key value).milling_output.map MillingOutput.final_out_qtl
      = st.milling_output.map MillingOutput.final_out_qtl ∧
    (set_cfg st key value).sales.map Sale.final_qtl = st.sales.map Sale.final_qtl ∧
    kg_per_qtl_of (set_cfg st "kg_per_qtl" value) = value := by
  refine ⟨rfl, rfl, rfl, rfl, rfl, rfl, rfl, rfl, ?_⟩
  simp [kg_per_qtl_of, get_cfg, set_cfg]

/-- Python `x * y if (x and y) else 0` on floats equals `x * y`: when
either factor is falsy (zero) the product is zero anyway. -/
theorem truthy_mul (a b : ℚ) : (if a ≠ 0 ∧ b ≠ 0 then a * b else 0) = a * b := by
  split
  · rfl
  · rename_i h
    rw [not_and_or, not_ne_iff, not_ne_iff] at h
    rcases h with h | h <;> simp [h]

/-- Python `a * (b or 0)` on floats equals `a * b`. -/
theorem or_zero_mul (a b : ℚ) : a * (if b ≠ 0 then b else 0) = a * b := by
  split
  · rfl
  · rename_i h
    rw [not_ne_iff] at h
    simp [h]

/-- C8: every add and every edit operation on a Purchase or a Sale, in
both application variants, leaves the stored derived field equal to the
product of the stored canonical quantity and rate
(`cost = final_qtl * rate_qtl`, `revenue = final_qtl * rate_qtl`) —
edits recompute the derived field from the new quantity and rate, so it
is never persisted inconsistently with its stored inputs. -/
theorem derived_fields_consistent (kpq : ℚ) (dt pid product grade_sel : String)
    (qq qk rate qty nq nr : ℚ) (notes : String) (p : Purchase) (s : Sale) :
    (purchaseRow_v1 kpq dt pid qq qk rate notes).cost
      = (purchaseRow_v1 kpq dt pid qq qk rate notes).final_qtl
        * (purchaseRow_v1 kpq dt pid qq qk rate notes).rate_qtl ∧
    (purchaseRow_v232 dt pid qty rate notes).cost
      = (purchaseRow_v232 dt pid qty rate notes).final_qtl
        * (purchaseRow_v232 dt pid qty rate notes).rate_qtl ∧
    (editPurchase_v232 p nq nr notes).cost
      = (editPurchase_v232 p nq nr notes).final_qtl
        * (editPurchase_v232 p nq nr notes).rate_qtl ∧
    (saleRow_v1 kpq dt product grade_sel qq qk rate notes).revenue
      = (saleRow_v1 kpq dt product grade_sel qq qk rate notes).final_qtl
        * (saleRow_v1 kpq dt product grade_sel qq qk rate notes).rate_qtl ∧
    (saleRow_v232 dt product grade_sel qty rate notes).revenue
      = (saleRow_v232 dt product grade_sel qty rate notes).final_qtl
        * (saleRow_v232 dt product grade_sel qty rate notes).rate_qtl ∧
    (editSale_v232 s nq nr notes).revenue
      = (editSale_v232 s nq nr notes).final_qtl * (editSale_v232 s nq nr notes).rate_qtl :=
  ⟨truthy_mul _ _, rfl, rfl, truthy_mul _ _, truthy_mul _ _, or_zero_mul _ _⟩

theorem filterMap_parse_mi (l : List MillingInput) :
    ((l.filter (fun r => ( parseDate r.dt).isSome)).filterMap
        (fun r => (parseDate r.dt).map (fun d => (d, r.final_used_qtl))))
      = l.filterMap (fun r => (parseDate r.dt).map (fun d => (d, r.final_used_qtl))) := by
  induction l with
  | nil => rfl
  | cons a t ih =>
    cases h : parseDate a.dt with
    | none => simp [List.filter_cons, List.filterMap_cons, h, ih]
    | some c => simp [List.filter_cons, List.filterMap_cons, h, ih]

theorem filterMap_parse_mo (l : List MillingOutput) :
    ((l.filter (fun r => ( parseDate r.dt).isSome)).filterMap
        (fun r => (parseDate r.dt).map (fun d => (d, r.final_out_qtl))))
      = l.filterMap (fun r => (parseDate r.dt).map (fun d => (d, r.final_out_qtl))) := by
  induction l with
  | nil => rfl
  | cons a t ih =>
    cases h : parseDate a.dt with
    | none => simp [List.filter_cons, List.filterMap_cons, h, ih]
    | some c => simp [List.filter_cons, List.filterMap_cons, h, ih]

/-- C9: `yield_by_date` silently excludes every row whose stored date
fails lenient parsing — the report over the full store equals the
report over the store restricted to parsable-date rows, and being a
total Lean function it can raise no exception — and its rows are sorted
by date descending. -/
theorem yield_by_date_spec (st : Store) :
    yield_by_date st =
      yield_by_date { st with
        milling_input := st.milling_input.filter (fun r => ( parseDate r.dt).isSome),
        milling_output := st.milling_output.filter (fun r => ( parseDate r.dt).isSome) } ∧
    (yield_by_date st).Pairwise (fun a b => b.key ≤ a.key) := by
  constructor
  · simp only [yield_by_date]
    rw [filterMap_parse_mi, filterMap_parse_mo]
  · exact pairwise_sortDescBy YieldRow.key _

/-- C10: on every snapshot of the transaction store, the Stock Ledger
and Yield % Report computations of the two cloud variants agree: the
stock tables and the daily yield are transcribed from line-for-line
identical code, and the two overall-yield expressions
`(out/used)*100` (v2_3) and `out*100/used` (v2_3_2) coincide in exact
arithmetic. -/
theorem cloud_variants_equivalent (st : Store) :
    paddy_stock_v23 st = paddy_stock st ∧
    grade_stock_v23 st = grade_stock st ∧
    yield_by_paddy_v23 st = yield_by_paddy st ∧
    yield_by_date_v23 st = yield_by_date st := by
  refine ⟨rfl, rfl, ?_, rfl⟩
  have hc : yieldCell_v23 = yieldCell := by
    funext used outq
    unfold yieldCell_v23 yieldCell
    split
    · rfl
    · rw [div_mul_eq_mul_div]
  simp only [yield_by_paddy_v23, yield_by_paddy, hc]

end RRM
